import Mathlib

/-!
# Verification of the TeleVM system-bus layer (`sysbus/src/lib.rs`)

Shallow embedding of the device bus and interrupt-allocation core:
the `SysBus` registry, the `SysBusDevOps` trait's default methods
(`set_irq`, `set_sys_resource`), `attach_device` / `attach_dynamic_device`,
and the region adapter `build_region_ops`.

Conventions of the embedding:
* Rust `i32` is modelled as `Int` and `u64` as `Nat`.  Rust arithmetic in
  this module panics on overflow in debug builds, so `Int`/`Nat` arithmetic
  faithfully models every non-panicking execution.
* Methods taking `&mut self` / `&mut SysBus` are modelled as functions that
  return the updated state together with the `Result`; `anyhow::Result<T>`
  becomes `Except String T`, with the error's message string.
* `Arc<Mutex<_>>`-guarded device access is modelled by explicit state
  threading (the code under verification is the Building-phase, sequential
  part of the bus; the lock acquire/release in the region adapter is the
  identity on this sequential model).
* The repository is built for `target_arch = "riscv64"` (see the
  `IRQ_BASE`/`IRQ_MAX` constants in the source, which exist only under that
  `cfg`), so the `x86_64`-only legacy-I/O branch of `attach_device` is dead
  code and every region is inserted into the memory address space.
-/

/-- The device type tag (`SysBusDevType` in the source); the `Plic` variant
is present because the target architecture is riscv64. -/
inductive SysBusDevType where
  | Serial
  | Rtc
  | VirtioMmio
  | Plic
  | FwCfg
  | Ramfb
  | PcieMem
  | Others
deriving DecidableEq, Repr

/-- The resource descriptor (`SysRes` in the source):
`{region_base: u64, region_size: u64, irq: i32}`. -/
structure SysRes where
  region_base : Nat
  region_size : Nat
  irq : Int
deriving DecidableEq, Repr

/-- `impl Default for SysRes`: `(0, 0, -1)`. -/
def SysRes.default : SysRes :=
  { region_base := 0, region_size := 0, irq := -1 }

/-- A bus-attached device, as the bus-level code observes it through the
`SysBusDevOps` trait: its `interrupt_evt()` answer (an `EventFd` is modelled
as a `Nat` handle), its `get_sys_resource()` answer (`some` iff the device
exposes a descriptor, together with the descriptor's current value), and its
`get_type()` answer.  The `read`/`write`/`ioeventfds` methods do not touch
bus state and are modelled separately for the region adapter (`DevRw`
below). -/
structure SysBusDevice where
  interrupt_evt : Option Nat
  sys_res : Option SysRes
  dev_type : SysBusDevType
deriving DecidableEq, Repr

/-- The bus registry (`SysBus` in the source).  `sys_mem` is the external
guest address space, observed here as the list of `(base, size)` regions it
currently holds (the collaborator's own tree structure is opaque). -/
structure SysBus where
  sys_mem : List (Nat × Nat)
  devices : List SysBusDevice
  free_irqs : Int × Int
  min_free_irq : Int
  mmio_region : Nat × Nat
  min_free_base : Nat
deriving DecidableEq, Repr

/-- `SysBus::new`: empty device list, interrupt cursor at `free_irqs.0`,
base cursor at `mmio_region.0`. -/
def SysBus.new (sys_mem : List (Nat × Nat)) (free_irqs : Int × Int)
    (mmio_region : Nat × Nat) : SysBus :=
  { sys_mem := sys_mem
    devices := []
    free_irqs := free_irqs
    min_free_irq := free_irqs.1
    mmio_region := mmio_region
    min_free_base := mmio_region.1 }

/-- The default `SysBusDevOps::set_irq(&mut self, sysbus)`:
read the cursor; if it exceeds `free_irqs.1`, bail `"IRQ number exhausted."`;
otherwise a device without an interrupt event gets `-1` and the cursor is
untouched, and a device with one gets the cursor value and the cursor
advances by one.  The `KVM_FDS.load().register_irqfd(evt, irq as u32)` call
is commented out in the source, so no acceleration-layer registration
happens (see `set_irq_spec` for the spec-described variant). -/
def SysBusDevOps.set_irq (d : SysBusDevice) (sysbus : SysBus) :
    Except String Int × SysBus :=
  let irq := sysbus.min_free_irq
  if irq > sysbus.free_irqs.2 then
    (.error "IRQ number exhausted.", sysbus)
  else
    match d.interrupt_evt with
    | none => (.ok (-1), sysbus)
    | some _ => (.ok irq, { sysbus with min_free_irq := irq + 1 })

/-- Modelled from the spec: the interrupt-allocation algorithm as §4.3 of
the specification describes it, including the external call
`register_interrupt_signal(handle, line_number)` into the hypervisor
acceleration collaborator — the call that the source has commented out.
The collaborator is passed as the function `accel`; its failure is
propagated (`?` in the described code) before the cursor advances. -/
def set_irq_spec (accel : Nat → Int → Except String Unit) (d : SysBusDevice)
    (sysbus : SysBus) : Except String Int × SysBus :=
  let irq := sysbus.min_free_irq
  if irq > sysbus.free_irqs.2 then
    (.error "IRQ number exhausted.", sysbus)
  else
    match d.interrupt_evt with
    | none => (.ok (-1), sysbus)
    | some evt =>
      match accel evt irq with
      | .error e => (.error e, sysbus)
      | .ok _ => (.ok irq, { sysbus with min_free_irq := irq + 1 })

/-- The default `SysBusDevOps::set_sys_resource(&mut self, sysbus,
region_base, region_size)`: first `set_irq` (propagating its error with
`?`), then if `get_sys_resource()` yields a descriptor, write all three of
its fields and succeed; otherwise bail `"Failed to get sys resource."`.
Returns the updated device and bus alongside the result. -/
def SysBusDevOps.set_sys_resource (d : SysBusDevice) (sysbus : SysBus)
    (region_base region_size : Nat) :
    Except String Unit × SysBusDevice × SysBus :=
  match SysBusDevOps.set_irq d sysbus with
  | (.error e, sysbus') => (.error e, d, sysbus')
  | (.ok irq, sysbus') =>
    match d.sys_res with
    | some _ =>
      let res : SysRes :=
        { region_base := region_base, region_size := region_size, irq := irq }
      (.ok (), { d with sys_res := some res }, sysbus')
    | none => (.error "Failed to get sys resource.", d, sysbus')

/-- Modelled from the spec: two byte ranges `[b1, b1+s1)` and `[b2, b2+s2)`
overlap.  The address-space collaborator's overlap detection itself is
opaque; its interface contract (§6) is that `insert(region, base)` "fails on
overlap". -/
def regions_overlap (b1 s1 b2 s2 : Nat) : Bool :=
  decide (b1 < b2 + s2) && decide (b2 < b1 + s1)

/-- Modelled from the spec: the address-space collaborator's
`root().add_subregion(region, base)`, with
`insert(region, base_address) -> Result<()>` semantics that fail on overlap
with an already-inserted region and otherwise record the new `(base, size)`
range. -/
def add_subregion (space : List (Nat × Nat)) (base size : Nat) :
    Except String (List (Nat × Nat)) :=
  if space.any fun r => regions_overlap r.1 r.2 base size then
    .error "region overlap"
  else
    .ok (space ++ [(base, size)])

/-- `SysBus::attach_device(&mut self, dev, region_base, region_size)`:
build the region adapter and an I/O region of `region_size` bytes over it,
install the device's ioeventfds (both effects live entirely in the external
address-space layer; the adapter itself is modelled by `build_region_ops`
below), select the address space by type tag — on riscv64 the
`Serial`/x86_64 legacy-I/O arm is statically false, so every device takes
the `_ => sys_mem` arm — insert the region at `region_base` (on rejection,
fail with the `with_context` message carrying base and size), and finally
push the device onto `devices`. -/
def SysBus.attach_device (b : SysBus) (dev : SysBusDevice)
    (region_base region_size : Nat) : Except String Unit × SysBus :=
  match add_subregion b.sys_mem region_base region_size with
  | .error _ =>
    (.error ("Failed to register region in memory space: offset=" ++
      toString region_base ++ ",size=" ++ toString region_size), b)
  | .ok mem =>
    (.ok (), { b with sys_mem := mem, devices := b.devices ++ [dev] })

/-- `SysBus::attach_dynamic_device(&mut self, dev)`: push the device and
succeed; no region insertion, no interrupt allocation. -/
def SysBus.attach_dynamic_device (b : SysBus) (dev : SysBusDevice) :
    Except String Unit × SysBus :=
  (.ok (), { b with devices := b.devices ++ [dev] })

/-- A sequence of `attach_device` calls made by machine-construction code,
in order, stopping at the first failure (an attach failure aborts machine
construction, §7). -/
def attach_sequence (b : SysBus) :
    List (SysBusDevice × Nat × Nat) → Except String Unit × SysBus
  | [] => (.ok (), b)
  | c :: rest =>
    match SysBus.attach_device b c.1 c.2.1 c.2.2 with
    | (.ok _, b') => attach_sequence b' rest
    | (.error e, b') => (.error e, b')

/-- A sequence of default `set_irq` calls made in attachment order,
collecting each device's allocated number, stopping at the first failure. -/
def set_irq_sequence (b : SysBus) :
    List SysBusDevice → Except String (List Int) × SysBus
  | [] => (.ok [], b)
  | d :: rest =>
    match SysBusDevOps.set_irq d b with
    | (.error e, b') => (.error e, b')
    | (.ok irq, b') =>
      match set_irq_sequence b' rest with
      | (.error e, b'') => (.error e, b'')
      | (.ok irqs, b'') => (.ok (irq :: irqs), b'')

/-- The `read`/`write` methods of a `SysBusDevOps` implementor with device
state `σ`: `read(&mut self, data, base, offset) -> bool` mutates the device
and fills the buffer, `write(&mut self, data, base, offset) -> bool` mutates
the device.  The buffer is a byte list, `base` the `GuestAddress`, `offset`
the offset past the region base. -/
structure DevRw (σ : Type) where
  read : σ → List Nat → Nat → Nat → Bool × List Nat × σ
  write : σ → List Nat → Nat → Nat → Bool × σ

/-- The pair of callback closures handed to the address-space layer
(`RegionOps` in the source), each capturing the shared device handle; a
call locks the device, runs the trait method, and yields its result.  In
this sequential model the lock acquire/release is the identity and the
guarded device state is threaded explicitly. -/
structure RegionOps (σ : Type) where
  read : σ → List Nat → Nat → Nat → Bool × List Nat × σ
  write : σ → List Nat → Nat → Nat → Bool × σ

/-- `SysBus::build_region_ops`: wrap the device's `read` and `write` into
the two region callbacks, forwarding `data`, `addr` and `offset` untouched
and returning the device's boolean verbatim. -/
def SysBus.build_region_ops {σ : Type} (ops : DevRw σ) : RegionOps σ :=
  { read := fun dev data addr offset => ops.read dev data addr offset
    write := fun dev data addr offset => ops.write dev data addr offset }

/-- The bus states reachable from a fresh registry (`SysBus::new` with a
well-formed range `lo ≤ hi`) by the Building-phase operations:
`attach_device`, `attach_dynamic_device`, default `set_irq`, default
`set_sys_resource` — each step keeps the state the operation returns,
whether the operation succeeded or failed. -/
inductive SysBus.Reachable : SysBus → Prop where
  | init (sys_mem : List (Nat × Nat)) (free_irqs : Int × Int)
      (mmio_region : Nat × Nat) (hlohi : free_irqs.1 ≤ free_irqs.2) :
      SysBus.Reachable (SysBus.new sys_mem free_irqs mmio_region)
  | attach (b : SysBus) (dev : SysBusDevice) (base size : Nat)
      (hb : SysBus.Reachable b) :
      SysBus.Reachable (SysBus.attach_device b dev base size).2
  | attach_dyn (b : SysBus) (dev : SysBusDevice) (hb : SysBus.Reachable b) :
      SysBus.Reachable (SysBus.attach_dynamic_device b dev).2
  | irq (b : SysBus) (dev : SysBusDevice) (hb : SysBus.Reachable b) :
      SysBus.Reachable (SysBusDevOps.set_irq dev b).2
  | sysres (b : SysBus) (dev : SysBusDevice) (base size : Nat)
      (hb : SysBus.Reachable b) :
      SysBus.Reachable (SysBusDevOps.set_sys_resource dev b base size).2.2

instance {ε α : Type} [DecidableEq ε] [DecidableEq α] :
    DecidableEq (Except ε α) := fun a b =>
  match a, b with
  | .ok x, .ok y =>
    if h : x = y then isTrue (h ▸ rfl)
    else isFalse fun c => h (Except.ok.inj c)
  | .error x, .error y =>
    if h : x = y then isTrue (h ▸ rfl)
    else isFalse fun c => h (Except.error.inj c)
  | .ok _, .error _ => isFalse Except.noConfusion
  | .error _, .ok _ => isFalse Except.noConfusion

/-- The `(base, size)` pairs of a call sequence can all be inserted, in
order, without overlap: each one is disjoint from the initial contents of
the address space and from every earlier insertion.  This is exactly the
"non-overlapping regions, so the address-space insertion succeeds"
precondition of the spec's attachment property. -/
def calls_disjoint (space : List (Nat × Nat)) : List (Nat × Nat) → Bool
  | [] => true
  | r :: rest =>
    !(space.any fun q => regions_overlap q.1 q.2 r.1 r.2) &&
    calls_disjoint (space ++ [r]) rest

/-! ## Helper lemmas about single operations -/

theorem set_irq_evt_some (d : SysBusDevice) (b : SysBus) (e : Nat)
    (he : d.interrupt_evt = some e) (hle : b.min_free_irq ≤ b.free_irqs.2) :
    SysBusDevOps.set_irq d b =
      (.ok b.min_free_irq, { b with min_free_irq := b.min_free_irq + 1 }) := by
  unfold SysBusDevOps.set_irq
  rw [if_neg (by omega), he]

theorem set_irq_evt_none (d : SysBusDevice) (b : SysBus)
    (he : d.interrupt_evt = none) (hle : b.min_free_irq ≤ b.free_irqs.2) :
    SysBusDevOps.set_irq d b = (.ok (-1), b) := by
  unfold SysBusDevOps.set_irq
  rw [if_neg (by omega), he]

theorem set_irq_exhausted (d : SysBusDevice) (b : SysBus)
    (hgt : b.min_free_irq > b.free_irqs.2) :
    SysBusDevOps.set_irq d b = (.error "IRQ number exhausted.", b) := by
  unfold SysBusDevOps.set_irq
  rw [if_pos hgt]

theorem set_irq_sequence_all_evt (devs : List SysBusDevice) :
    ∀ b : SysBus, (∀ d ∈ devs, d.interrupt_evt ≠ none) →
    b.min_free_irq + devs.length ≤ b.free_irqs.2 + 1 →
    set_irq_sequence b devs =
      (.ok ((List.range devs.length).map fun k : Nat =>
              b.min_free_irq + (k : Int)),
       { b with min_free_irq := b.min_free_irq + devs.length }) := by
  induction devs with
  | nil =>
    intro b _ _
    simp [set_irq_sequence]
  | cons d rest ih =>
    intro b hall hle
    obtain ⟨e, he⟩ := Option.ne_none_iff_exists'.mp (hall d (by simp))
    have hstep := set_irq_evt_some d b e he (by simp at hle; omega)
    have hrest := ih { b with min_free_irq := b.min_free_irq + 1 }
      (fun d hd => hall d (by simp [hd])) (by simp at hle ⊢; omega)
    simp only [set_irq_sequence, hstep, hrest]
    rw [Prod.mk.injEq]
    constructor
    · simp only [List.length_cons]
      rw [List.range_succ_eq_map]
      simp only [List.map_cons, List.map_map]
      rw [Except.ok.injEq, List.cons.injEq]
      constructor
      · simp
      · apply List.map_congr_left
        intro k _
        simp only [Function.comp_apply]
        push_cast
        ring
    · simp only [List.length_cons]
      rw [SysBus.mk.injEq]
      refine ⟨rfl, rfl, rfl, by push_cast; ring, rfl, rfl⟩

/-! ## Claim C1 -/

/-- Claim C1: with the interrupt cursor within `[lo, hi]`, the default
`set_irq` on a device whose `interrupt_evt` returns a handle returns the
current cursor value and advances the cursor by one; a call on a device
whose `interrupt_evt` returns none returns the sentinel `-1` and leaves the
cursor unchanged; consequently a sequence of `N` handle-bearing devices
starting with the cursor at `lo` receives exactly `lo, lo+1, …, lo+N-1`. -/
theorem C1_set_irq_sequential_allocation :
    (∀ (d : SysBusDevice) (b : SysBus) (e : Nat),
        d.interrupt_evt = some e → b.min_free_irq ≤ b.free_irqs.2 →
        SysBusDevOps.set_irq d b =
          (.ok b.min_free_irq, { b with min_free_irq := b.min_free_irq + 1 })) ∧
    (∀ (d : SysBusDevice) (b : SysBus),
        d.interrupt_evt = none → b.min_free_irq ≤ b.free_irqs.2 →
        SysBusDevOps.set_irq d b = (.ok (-1), b)) ∧
    (∀ (devs : List SysBusDevice) (b : SysBus),
        (∀ d ∈ devs, d.interrupt_evt ≠ none) →
        b.min_free_irq = b.free_irqs.1 →
        b.free_irqs.1 + devs.length ≤ b.free_irqs.2 + 1 →
        set_irq_sequence b devs =
          (.ok ((List.range devs.length).map fun k : Nat =>
                  b.free_irqs.1 + (k : Int)),
           { b with min_free_irq := b.free_irqs.1 + devs.length })) := by
  refine ⟨set_irq_evt_some, set_irq_evt_none, ?_⟩
  intro devs b hall hlo hle
  have h := set_irq_sequence_all_evt devs b hall (by rw [hlo]; exact hle)
  rwa [hlo] at h

/-- Witness for C1: three devices with handles attached to a fresh bus with
range `[3, 10]` receive exactly `3, 4, 5`. -/
theorem C1_set_irq_sequential_allocation_witness :
    set_irq_sequence (SysBus.new [] (3, 10) (0, 0))
        [⟨some 1, none, .Others⟩, ⟨some 2, none, .Others⟩,
         ⟨some 3, none, .Others⟩] =
      (.ok [3, 4, 5], { SysBus.new [] (3, 10) (0, 0) with min_free_irq := 6 }) := by
  have h := C1_set_irq_sequential_allocation.2.2
    [⟨some 1, none, .Others⟩, ⟨some 2, none, .Others⟩, ⟨some 3, none, .Others⟩]
    (SysBus.new [] (3, 10) (0, 0)) (by decide) (by decide) (by decide)
  rw [h]
  decide

/-! ## Claim C2 -/

/-- Counterexample to claim C2: after exhaustion (cursor `2` past the
range `[1, 1]`), a `set_irq` call on a device with no interrupt-signal
handle does NOT receive `-1`; it receives the exhaustion error, because the
default `set_irq` checks the cursor before consulting `interrupt_evt`. -/
theorem C2_counterexample :
    SysBusDevOps.set_irq ⟨none, none, .Others⟩
        { SysBus.new [] (1, 1) (0, 0) with min_free_irq := 2 } =
      (.error "IRQ number exhausted.",
       { SysBus.new [] (1, 1) (0, 0) with min_free_irq := 2 }) ∧
    (SysBusDevOps.set_irq ⟨none, none, .Others⟩
        { SysBus.new [] (1, 1) (0, 0) with min_free_irq := 2 }).1 ≠
      .ok (-1) := by
  decide

/-- Claim C2, amended: once the interrupt cursor exceeds the range maximum
`hi`, every subsequent default `set_irq` call fails with the
interrupt-exhaustion error and leaves the cursor unchanged — including a
call on a device with no interrupt-signal handle, which receives the error
rather than `-1` (the exhaustion check precedes the handle check) — so no
further device in the same construction sequence receives a valid interrupt
number. -/
theorem C2_exhaustion_fails_every_call (d : SysBusDevice) (b : SysBus)
    (hgt : b.min_free_irq > b.free_irqs.2) :
    SysBusDevOps.set_irq d b = (.error "IRQ number exhausted.", b) ∧
    ∀ devs : List SysBusDevice, devs ≠ [] →
      set_irq_sequence b devs = (.error "IRQ number exhausted.", b) := by
  refine ⟨set_irq_exhausted d b hgt, ?_⟩
  intro devs hne
  cases devs with
  | nil => exact absurd rfl hne
  | cons d' rest =>
    simp [set_irq_sequence, set_irq_exhausted d' b hgt]

/-- Witness for C2 (amended): on a bus with range `[1, 4]` whose cursor has
reached `5`, both a single call (on a handle-less device) and a subsequent
one-device sequence fail with the exhaustion error. -/
theorem C2_exhaustion_fails_every_call_witness :
    SysBusDevOps.set_irq ⟨none, none, .Others⟩
        { SysBus.new [] (1, 4) (0, 0) with min_free_irq := 5 } =
      (.error "IRQ number exhausted.",
       { SysBus.new [] (1, 4) (0, 0) with min_free_irq := 5 }) ∧
    set_irq_sequence { SysBus.new [] (1, 4) (0, 0) with min_free_irq := 5 }
        [⟨some 7, none, .Others⟩] =
      (.error "IRQ number exhausted.",
       { SysBus.new [] (1, 4) (0, 0) with min_free_irq := 5 }) := by
  have h := C2_exhaustion_fails_every_call ⟨none, none, .Others⟩
    { SysBus.new [] (1, 4) (0, 0) with min_free_irq := 5 } (by decide)
  exact ⟨h.1, h.2 [⟨some 7, none, .Others⟩] (by decide)⟩

/-! ## Claim C3 -/

/-- Claim C3: for every sequence of `attach_device` calls whose
`(base, size)` regions do not overlap (each insertion succeeds), every call
returns success and appends exactly the given device, so the device count
grows by one per call and the final device sequence is the initial one
followed by the attached devices in call order. -/
theorem C3_attach_sequence_appends_in_order (b : SysBus)
    (calls : List (SysBusDevice × Nat × Nat))
    (hdisj : calls_disjoint b.sys_mem (calls.map fun c => (c.2.1, c.2.2)) = true) :
    attach_sequence b calls =
      (.ok (),
       { b with
           sys_mem := b.sys_mem ++ (calls.map fun c => (c.2.1, c.2.2)),
           devices := b.devices ++ (calls.map fun c => c.1) }) := by
  induction calls generalizing b with
  | nil => simp [attach_sequence]
  | cons c rest ih =>
    simp only [List.map_cons, calls_disjoint, Bool.and_eq_true,
      Bool.not_eq_true'] at hdisj
    obtain ⟨hno, hrest⟩ := hdisj
    have hstep : SysBus.attach_device b c.1 c.2.1 c.2.2 =
        (.ok (),
         { b with
             sys_mem := b.sys_mem ++ [(c.2.1, c.2.2)],
             devices := b.devices ++ [c.1] }) := by
      unfold SysBus.attach_device add_subregion
      simp [hno]
    have hrest' := ih
      { b with
          sys_mem := b.sys_mem ++ [(c.2.1, c.2.2)],
          devices := b.devices ++ [c.1] } hrest
    simp only [attach_sequence, hstep, hrest']
    simp

/-- Witness for C3: attaching two devices at disjoint regions
`(0x1000, 0x100)` and `(0x2000, 0x100)` to a fresh bus succeeds and records
both devices in call order. -/
theorem C3_attach_sequence_appends_in_order_witness :
    attach_sequence (SysBus.new [] (1, 32) (4096, 65536))
        [(⟨some 1, none, .Serial⟩, 4096, 256),
         (⟨none, none, .Rtc⟩, 8192, 256)] =
      (.ok (),
       { SysBus.new [] (1, 32) (4096, 65536) with
           sys_mem := [(4096, 256), (8192, 256)],
           devices := [⟨some 1, none, .Serial⟩, ⟨none, none, .Rtc⟩] }) := by
  have h := C3_attach_sequence_appends_in_order
    (SysBus.new [] (1, 32) (4096, 65536))
    [(⟨some 1, none, .Serial⟩, 4096, 256), (⟨none, none, .Rtc⟩, 8192, 256)]
    (by decide)
  rw [h]
  decide

/-! ## Claim C4 -/

/-- Claim C4: when the address-space layer rejects the region insertion
(the region overlaps one already inserted), `attach_device` returns an
error whose message carries the offending base and size, and the bus —
in particular its device sequence — is unchanged. -/
theorem C4_attach_device_rejection_leaves_bus_unchanged (b : SysBus)
    (dev : SysBusDevice) (base size : Nat)
    (hov : (b.sys_mem.any fun r => regions_overlap r.1 r.2 base size) = true) :
    SysBus.attach_device b dev base size =
      (.error ("Failed to register region in memory space: offset=" ++
        toString base ++ ",size=" ++ toString size), b) := by
  unfold SysBus.attach_device add_subregion
  simp [hov]

/-- Witness for C4: attaching at `(4200, 16)`, inside the already-occupied
`(4096, 256)`, fails with the message carrying `4200` and `16` and leaves
the bus exactly as it was. -/
theorem C4_attach_device_rejection_leaves_bus_unchanged_witness :
    SysBus.attach_device
        { SysBus.new [] (1, 32) (4096, 65536) with sys_mem := [(4096, 256)] }
        ⟨none, none, .Others⟩ 4200 16 =
      (.error "Failed to register region in memory space: offset=4200,size=16",
       { SysBus.new [] (1, 32) (4096, 65536) with sys_mem := [(4096, 256)] }) := by
  have h := C4_attach_device_rejection_leaves_bus_unchanged
    { SysBus.new [] (1, 32) (4096, 65536) with sys_mem := [(4096, 256)] }
    ⟨none, none, .Others⟩ 4200 16 (by decide)
  rw [h]
  decide

/-! ## Claim C5 -/

/-- Claim C5: the default `set_sys_resource(bus, region_base, region_size)`
first calls `set_irq`; when `set_irq` succeeds and the device exposes a
resource descriptor, it writes the descriptor's `region_base`,
`region_size` and `irq` (to the allocated value) and succeeds; when the
device exposes no descriptor it returns an error; and it succeeds exactly
when `set_irq` succeeds and a descriptor is exposed. -/
theorem C5_set_sys_resource_populates_descriptor :
    (∀ (d : SysBusDevice) (b : SysBus) (base size : Nat) (irq : Int)
        (b' : SysBus),
        SysBusDevOps.set_irq d b = (.ok irq, b') →
        d.sys_res.isSome = true →
        SysBusDevOps.set_sys_resource d b base size =
          (.ok (), { d with sys_res := some ⟨base, size, irq⟩ }, b')) ∧
    (∀ (d : SysBusDevice) (b : SysBus) (base size : Nat),
        d.sys_res = none →
        ∃ e, (SysBusDevOps.set_sys_resource d b base size).1 = .error e) ∧
    (∀ (d : SysBusDevice) (b : SysBus) (base size : Nat),
        (SysBusDevOps.set_sys_resource d b base size).1 = .ok () ↔
          (∃ irq b', SysBusDevOps.set_irq d b = (.ok irq, b')) ∧
          d.sys_res.isSome = true) := by
  refine ⟨?_, ?_, ?_⟩
  · intro d b base size irq b' hirq hs
    obtain ⟨r, hr⟩ := Option.isSome_iff_exists.mp hs
    unfold SysBusDevOps.set_sys_resource
    rw [hirq, hr]
  · intro d b base size hres
    unfold SysBusDevOps.set_sys_resource
    rcases h : SysBusDevOps.set_irq d b with ⟨r, b'⟩
    cases r with
    | error e => exact ⟨e, rfl⟩
    | ok irq => rw [hres]; exact ⟨"Failed to get sys resource.", rfl⟩
  · intro d b base size
    unfold SysBusDevOps.set_sys_resource
    rcases h : SysBusDevOps.set_irq d b with ⟨r, b'⟩
    cases r with
    | error e => cases hres : d.sys_res <;> simp [hres]
    | ok irq => cases hres : d.sys_res <;> simp [hres]

/-- Witness for C5: on a device exposing both a handle and a descriptor,
with range `[1, 10]`, `set_sys_resource` at `(4096, 256)` allocates irq `1`
and writes the descriptor. -/
theorem C5_set_sys_resource_populates_descriptor_witness :
    SysBusDevOps.set_sys_resource
        ⟨some 4, some SysRes.default, .Rtc⟩
        (SysBus.new [] (1, 10) (0, 0)) 4096 256 =
      (.ok (), ⟨some 4, some ⟨4096, 256, 1⟩, .Rtc⟩,
       { SysBus.new [] (1, 10) (0, 0) with min_free_irq := 2 }) := by
  have h := C5_set_sys_resource_populates_descriptor.1
    ⟨some 4, some SysRes.default, .Rtc⟩ (SysBus.new [] (1, 10) (0, 0))
    4096 256 1 { SysBus.new [] (1, 10) (0, 0) with min_free_irq := 2 }
    (by decide) (by decide)
  rw [h]

/-! ## Claim C6 -/

/-- Counterexample to claim C6: `set_sys_resource` on a device whose
`get_sys_resource` is none but whose `interrupt_evt` is a handle, with the
cursor at `lo = 1` inside range `[1, 1024]`, fails with the
missing-resource-slot error yet the bus registry IS mutated: the interrupt
cursor moves from `1` to `2`, because the inner `set_irq` runs first and is
not rolled back. -/
theorem C6_counterexample :
    SysBusDevOps.set_sys_resource ⟨some 3, none, .Others⟩
        (SysBus.new [] (1, 1024) (0, 0)) 4096 256 =
      (.error "Failed to get sys resource.", ⟨some 3, none, .Others⟩,
       { SysBus.new [] (1, 1024) (0, 0) with min_free_irq := 2 }) ∧
    (SysBusDevOps.set_sys_resource ⟨some 3, none, .Others⟩
        (SysBus.new [] (1, 1024) (0, 0)) 4096 256).2.2.min_free_irq ≠
      (SysBus.new [] (1, 1024) (0, 0)).min_free_irq := by
  decide

/-- Claim C6, amended: `set_sys_resource` on a device whose
`get_sys_resource` returns none fails with the missing-resource-slot error
(when the cursor is in range, so the inner `set_irq` does not fail first)
and leaves the device untouched, but the bus is left as the inner `set_irq`
left it: the interrupt cursor advances by one when the device exposes an
interrupt-signal handle, and only stays unchanged when it exposes none. -/
theorem C6_missing_slot_fails_but_cursor_advances (d : SysBusDevice)
    (b : SysBus) (base size : Nat) (hres : d.sys_res = none)
    (hle : b.min_free_irq ≤ b.free_irqs.2) :
    SysBusDevOps.set_sys_resource d b base size =
      (.error "Failed to get sys resource.", d, (SysBusDevOps.set_irq d b).2) ∧
    (d.interrupt_evt = none → (SysBusDevOps.set_irq d b).2 = b) ∧
    (∀ e, d.interrupt_evt = some e →
      (SysBusDevOps.set_irq d b).2 =
        { b with min_free_irq := b.min_free_irq + 1 }) := by
  refine ⟨?_, ?_, ?_⟩
  · cases hevt : d.interrupt_evt with
    | none =>
      unfold SysBusDevOps.set_sys_resource
      rw [set_irq_evt_none d b hevt hle, hres]
    | some e =>
      unfold SysBusDevOps.set_sys_resource
      rw [set_irq_evt_some d b e hevt hle, hres]
  · intro hevt
    rw [set_irq_evt_none d b hevt hle]
  · intro e hevt
    rw [set_irq_evt_some d b e hevt hle]

/-- Witness for C6 (amended): the concrete device `⟨some 3, none, Others⟩`
on a fresh `[1, 1024]` bus. -/
theorem C6_missing_slot_fails_but_cursor_advances_witness :
    SysBusDevOps.set_sys_resource ⟨some 3, none, .Others⟩
        (SysBus.new [] (1, 1024) (0, 0)) 4096 256 =
      (.error "Failed to get sys resource.", ⟨some 3, none, .Others⟩,
       (SysBusDevOps.set_irq ⟨some 3, none, .Others⟩
          (SysBus.new [] (1, 1024) (0, 0))).2) ∧
    (SysBusDevOps.set_irq ⟨some 3, none, .Others⟩
        (SysBus.new [] (1, 1024) (0, 0))).2 =
      { SysBus.new [] (1, 1024) (0, 0) with min_free_irq := 2 } := by
  have h := C6_missing_slot_fails_but_cursor_advances ⟨some 3, none, .Others⟩
    (SysBus.new [] (1, 1024) (0, 0)) 4096 256 (by decide) (by decide)
  exact ⟨h.1, by rw [h.2.2 3 (by decide)]; decide⟩

/-! ## Claim C7 -/

/-- Counterexample to claim C7: with an acceleration layer that rejects
every registration, the spec-described allocation (`set_irq_spec`, which
performs the registration and propagates its failure) fails on the concrete
device `⟨some 9, …⟩` over a fresh `[1, 1024]` bus, while the source's
`set_irq` succeeds with irq `1` and advances the cursor: the source
registers nothing with the acceleration layer (the `register_irqfd` call is
commented out) and can never propagate a registration failure. -/
theorem C7_counterexample :
    SysBusDevOps.set_irq ⟨some 9, none, .Others⟩
        (SysBus.new [] (1, 1024) (0, 0)) =
      (.ok 1, { SysBus.new [] (1, 1024) (0, 0) with min_free_irq := 2 }) ∧
    set_irq_spec (fun _ _ => .error "irqfd registration failed")
        ⟨some 9, none, .Others⟩ (SysBus.new [] (1, 1024) (0, 0)) =
      (.error "irqfd registration failed", SysBus.new [] (1, 1024) (0, 0)) := by
  exact ⟨rfl, rfl⟩

/-- Claim C7, amended: the default `set_irq` performs no hypervisor
acceleration-layer registration (the `register_irqfd` call is commented out
in this code), so a registration failure is never propagated: on a device
with an interrupt-signal handle while the cursor is in range it
unconditionally advances the cursor and returns the previous cursor value,
and it agrees with the spec-described registering algorithm exactly when
the registration call would have succeeded. -/
theorem C7_set_irq_skips_acceleration_layer (d : SysBusDevice) (b : SysBus)
    (e : Nat) (he : d.interrupt_evt = some e)
    (hle : b.min_free_irq ≤ b.free_irqs.2) :
    SysBusDevOps.set_irq d b =
      (.ok b.min_free_irq, { b with min_free_irq := b.min_free_irq + 1 }) ∧
    ∀ accel : Nat → Int → Except String Unit,
      accel e b.min_free_irq = .ok () →
      set_irq_spec accel d b = SysBusDevOps.set_irq d b := by
  refine ⟨set_irq_evt_some d b e he hle, ?_⟩
  intro accel haccel
  unfold set_irq_spec
  rw [if_neg (by omega), he, set_irq_evt_some d b e he hle]
  simp only [haccel]

/-- Witness for C7 (amended): the concrete device `⟨some 9, …⟩` on a fresh
`[1, 1024]` bus, with an acceleration layer that accepts everything. -/
theorem C7_set_irq_skips_acceleration_layer_witness :
    SysBusDevOps.set_irq ⟨some 9, none, .Others⟩
        (SysBus.new [] (1, 1024) (0, 0)) =
      (.ok 1, { SysBus.new [] (1, 1024) (0, 0) with min_free_irq := 2 }) ∧
    set_irq_spec (fun _ _ => .ok ()) ⟨some 9, none, .Others⟩
        (SysBus.new [] (1, 1024) (0, 0)) =
      SysBusDevOps.set_irq ⟨some 9, none, .Others⟩
        (SysBus.new [] (1, 1024) (0, 0)) := by
  have h := C7_set_irq_skips_acceleration_layer ⟨some 9, none, .Others⟩
    (SysBus.new [] (1, 1024) (0, 0)) 9 (by decide) (by decide)
  refine ⟨by rw [h.1]; decide, h.2 (fun _ _ => .ok ()) (by decide)⟩

/-! ## Claim C8 -/

/-- Claim C8: the region adapter built by `build_region_ops` forwards every
read to the captured device's `read` with the identical buffer, base
address and offset, and returns the device's boolean result (and effects)
unchanged — a device answering `false` is observed as `false` at the
boundary — and symmetrically for writes. -/
theorem C8_region_adapter_forwards_unchanged {σ : Type} (ops : DevRw σ)
    (dev : σ) (data : List Nat) (addr offset : Nat) :
    (SysBus.build_region_ops ops).read dev data addr offset =
      ops.read dev data addr offset ∧
    (SysBus.build_region_ops ops).write dev data addr offset =
      ops.write dev data addr offset ∧
    ((SysBus.build_region_ops ops).read dev data addr offset).1 =
      (ops.read dev data addr offset).1 ∧
    ((SysBus.build_region_ops ops).write dev data addr offset).1 =
      (ops.write dev data addr offset).1 :=
  ⟨rfl, rfl, rfl, rfl⟩

/-! ## Claim C10 -/

/-- Claim C10: when the inner `set_irq` fails with interrupt exhaustion,
the default `set_sys_resource` propagates exactly that error and performs
no mutation at all: the device — in particular its resource descriptor —
and the bus come back exactly as they went in. -/
theorem C10_exhaustion_error_leaves_descriptor_untouched (d : SysBusDevice)
    (b : SysBus) (base size : Nat) (hgt : b.min_free_irq > b.free_irqs.2) :
    SysBusDevOps.set_sys_resource d b base size =
      (.error "IRQ number exhausted.", d, b) := by
  unfold SysBusDevOps.set_sys_resource
  rw [set_irq_exhausted d b hgt]

/-- Witness for C10: a device with a handle and a default descriptor on a
bus whose cursor `5` exceeds the range `[1, 4]`: the call fails with the
exhaustion error and returns device and bus unchanged. -/
theorem C10_exhaustion_error_leaves_descriptor_untouched_witness :
    SysBusDevOps.set_sys_resource ⟨some 2, some SysRes.default, .Rtc⟩
        { SysBus.new [] (1, 4) (0, 0) with min_free_irq := 5 } 4096 256 =
      (.error "IRQ number exhausted.", ⟨some 2, some SysRes.default, .Rtc⟩,
       { SysBus.new [] (1, 4) (0, 0) with min_free_irq := 5 }) :=
  C10_exhaustion_error_leaves_descriptor_untouched
    ⟨some 2, some SysRes.default, .Rtc⟩
    { SysBus.new [] (1, 4) (0, 0) with min_free_irq := 5 } 4096 256 (by decide)

/-! ## Claim C9 -/

theorem set_irq_bus_cases (d : SysBusDevice) (b : SysBus) :
    (SysBusDevOps.set_irq d b).2 = b ∨
    ((SysBusDevOps.set_irq d b).2 =
        { b with min_free_irq := b.min_free_irq + 1 } ∧
      b.min_free_irq ≤ b.free_irqs.2) := by
  unfold SysBusDevOps.set_irq
  by_cases h : b.min_free_irq > b.free_irqs.2
  · rw [if_pos h]
    left
    rfl
  · rw [if_neg h]
    rcases hevt : d.interrupt_evt with _ | e
    · left
      rfl
    · right
      exact ⟨rfl, by omega⟩

theorem set_sys_resource_bus_eq_set_irq_bus (d : SysBusDevice) (b : SysBus)
    (base size : Nat) :
    (SysBusDevOps.set_sys_resource d b base size).2.2 =
      (SysBusDevOps.set_irq d b).2 := by
  unfold SysBusDevOps.set_sys_resource
  rcases h : SysBusDevOps.set_irq d b with ⟨r, b'⟩
  cases r with
  | error e => rfl
  | ok irq => cases hres : d.sys_res <;> simp [hres]

theorem attach_device_bus_cases (b : SysBus) (dev : SysBusDevice)
    (base size : Nat) :
    (SysBus.attach_device b dev base size).2 = b ∨
    (SysBus.attach_device b dev base size).2 =
      { b with
          sys_mem := b.sys_mem ++ [(base, size)],
          devices := b.devices ++ [dev] } := by
  unfold SysBus.attach_device add_subregion
  cases hc : (b.sys_mem.any fun r => regions_overlap r.1 r.2 base size)
  · right
    simp [hc]
  · left
    simp [hc]

theorem reachable_cursor_bounds (b : SysBus) (hb : SysBus.Reachable b) :
    b.free_irqs.1 ≤ b.min_free_irq ∧ b.min_free_irq ≤ b.free_irqs.2 + 1 := by
  induction hb with
  | init sm fi mm hlohi =>
    simp only [SysBus.new]
    omega
  | attach b dev base size hb ih =>
    rcases attach_device_bus_cases b dev base size with h | h <;> rw [h]
    · exact ih
    · exact ih
  | attach_dyn b dev hb ih =>
    exact ih
  | irq b d hb ih =>
    rcases set_irq_bus_cases d b with h | ⟨h, hle⟩ <;> rw [h]
    · exact ih
    · simp only []
      constructor
      · exact le_trans ih.1 (by omega)
      · omega
  | sysres b d base size hb ih =>
    rw [set_sys_resource_bus_eq_set_irq_bus]
    rcases set_irq_bus_cases d b with h | ⟨h, hle⟩ <;> rw [h]
    · exact ih
    · simp only []
      constructor
      · exact le_trans ih.1 (by omega)
      · omega

/-- Claim C9: the interrupt cursor `min_free_irq` is initialized to the
range minimum by the constructor; it is monotonically non-decreasing across
every operation (`attach_device`, `attach_dynamic_device`, `set_irq`,
`set_sys_resource`); and on every state reachable from a fresh registry
with `lo ≤ hi` by these operations it satisfies `lo ≤ min_free_irq ≤
hi + 1`. -/
theorem C9_cursor_monotone_and_bounded :
    (∀ (sm : List (Nat × Nat)) (fi : Int × Int) (mm : Nat × Nat),
        (SysBus.new sm fi mm).min_free_irq = fi.1) ∧
    (∀ (b : SysBus) (dev : SysBusDevice) (base size : Nat),
        (SysBus.attach_device b dev base size).2.min_free_irq =
          b.min_free_irq) ∧
    (∀ (b : SysBus) (dev : SysBusDevice),
        (SysBus.attach_dynamic_device b dev).2.min_free_irq =
          b.min_free_irq) ∧
    (∀ (d : SysBusDevice) (b : SysBus),
        b.min_free_irq ≤ (SysBusDevOps.set_irq d b).2.min_free_irq) ∧
    (∀ (d : SysBusDevice) (b : SysBus) (base size : Nat),
        b.min_free_irq ≤
          (SysBusDevOps.set_sys_resource d b base size).2.2.min_free_irq) ∧
    (∀ b : SysBus, SysBus.Reachable b →
        b.free_irqs.1 ≤ b.min_free_irq ∧
        b.min_free_irq ≤ b.free_irqs.2 + 1) := by
  refine ⟨fun _ _ _ => rfl, ?_, fun _ _ => rfl, ?_, ?_, reachable_cursor_bounds⟩
  · intro b dev base size
    rcases attach_device_bus_cases b dev base size with h | h <;> rw [h]
  · intro d b
    rcases set_irq_bus_cases d b with h | ⟨h, _⟩ <;> rw [h]
    simp only []
    omega
  · intro d b base size
    rw [set_sys_resource_bus_eq_set_irq_bus]
    rcases set_irq_bus_cases d b with h | ⟨h, _⟩ <;> rw [h]
    simp only []
    omega

/-- Witness for C9: a fresh bus over range `[1, 1024]` is reachable and its
cursor `1` satisfies `1 ≤ 1 ≤ 1025`; one `set_irq` on it keeps the cursor
non-decreasing. -/
theorem C9_cursor_monotone_and_bounded_witness :
    ((SysBus.new [] (1, 1024) (0, 0)).free_irqs.1 ≤
        (SysBus.new [] (1, 1024) (0, 0)).min_free_irq ∧
      (SysBus.new [] (1, 1024) (0, 0)).min_free_irq ≤
        (SysBus.new [] (1, 1024) (0, 0)).free_irqs.2 + 1) ∧
    (SysBus.new [] (1, 1024) (0, 0)).min_free_irq ≤
      (SysBusDevOps.set_irq ⟨some 2, none, .Others⟩
        (SysBus.new [] (1, 1024) (0, 0))).2.min_free_irq :=
  ⟨C9_cursor_monotone_and_bounded.2.2.2.2.2 (SysBus.new [] (1, 1024) (0, 0))
      (SysBus.Reachable.init [] (1, 1024) (0, 0) (by decide)),
   C9_cursor_monotone_and_bounded.2.2.2.1 ⟨some 2, none, .Others⟩
      (SysBus.new [] (1, 1024) (0, 0))⟩
